import Mathlib

/-!
Shallow embedding of `homeassistant/components/swidget/config_flow.py`
(the Swidget integration's config flow) and the facts proved about it.

Python dictionaries of string keys and string values are modelled as
association lists; Python exceptions are modelled with an `Except` result,
where the error side carries the class of the uncaught exception.
External collaborators (the swidget device library, the Home Assistant
framework helpers) live outside the translated file; they are modelled as
explicit oracle parameters or, where this repository's code is missing
from the sources, from the specification's words (marked in doc comments).
-/

namespace Swidget

/-- A Python `dict[str, str]` as an association list (first binding wins). -/
abbrev Dict := List (String × String)

/-- `d[k]` as a partial lookup: `none` models a `KeyError`. -/
def dictGet (d : Dict) (k : String) : Option String :=
  (List.find? (fun p => p.1 == k) d).map (fun p => p.2)

/-- `d[k] = v`: overwrite the binding if present, append it otherwise. -/
def dictSet (d : Dict) (k v : String) : Dict :=
  if List.any d (fun p => p.1 == k) then
    List.map (fun (p : String × String) => if p.1 = k then (k, v) else p) d
  else d ++ [(k, v)]

/-- The swidget library's discovered-device descriptor
(`SwidgetDiscoveredDevice`): hardware identifier, network host and a
human-readable name. -/
structure SwidgetDiscoveredDevice where
  mac : String
  host : String
  friendly_name : String
deriving DecidableEq, Repr

/-- Modelled from the spec: the library's two-argument construction
`SwidgetDiscoveredDevice(mac, host)` used at the discovery entry; the
friendly name is not part of this construction, so it is left empty. -/
def SwidgetDiscoveredDevice.fromMacHost (mac host : String) : SwidgetDiscoveredDevice :=
  ⟨mac, host, ""⟩

/-- `CandidateMap`: identifier → discovered-device descriptor. -/
abbrev CandidateMap := List (String × SwidgetDiscoveredDevice)

/-- Lookup in a `CandidateMap` (`self._discovered_devices[mac]`);
`none` models a `KeyError`. -/
def candidateGet (d : CandidateMap) (k : String) : Option SwidgetDiscoveredDevice :=
  (List.find? (fun p => p.1 == k) d).map (fun p => p.2)

/-- What one live interaction with a device does: the constructor
`SwidgetDevice(host, token_name, password, False)` followed by
`await device.update()` either succeeds and exposes a friendly name,
raises the library's `SwidgetException`, or raises some other exception. -/
inductive ConnectOutcome where
  | ok (friendly_name : String)
  | swidgetError
  | otherError
deriving DecidableEq, Repr

/-- The device-connection oracle: behaviour of the external swidget library
for a given (host, token_name, password) triple. -/
def Connect := String → String → String → ConnectOutcome

/-- Classes of exceptions that a step can leave uncaught. -/
inductive Exc where
  | cannotConnect
  | invalidAuth
  | keyError
  | assertionError
  | otherExc
deriving DecidableEq, Repr

/-- Result of `validate_input` on success: the info dict `{"title": ...}`. -/
structure ValidateInfo where
  title : String
deriving DecidableEq, Repr

/-- `validate_input(hass, data)`: reads `data["host"]`, `data["token_name"]`,
`data["password"]` (a missing key raises `KeyError`, which the function's
`except SwidgetException` clause does not catch), connects to the device and
refreshes it; `SwidgetException` is re-raised as `CannotConnect`, success
returns `{"title": device.friendly_name}`, and any other exception escapes. -/
def validate_input (connect : Connect) (data : Dict) : Except Exc ValidateInfo :=
  match dictGet data "host" with
  | none => .error .keyError
  | some host =>
    match dictGet data "token_name" with
    | none => .error .keyError
    | some tokenName =>
      match dictGet data "password" with
      | none => .error .keyError
      | some password =>
        match connect host tokenName password with
        | .ok name => .ok ⟨name⟩
        | .swidgetError => .error .cannotConnect
        | .otherError => .error .otherExc

/-- Raw outcome of the external discovery transport. -/
inductive TransportOutcome where
  | ok (m : CandidateMap)
  | transportError
deriving DecidableEq, Repr

/-- Modelled from the spec: the external swidget library's
`discover_devices` primitive, absent from the sources; per the spec it
"fails silently to an empty map on transport-level discovery errors". -/
def discover_devices : TransportOutcome → CandidateMap
  | .ok m => m
  | .transportError => []

/-- `async_discover_devices(hass)`: returns the library's discovery result
unchanged. -/
def async_discover_devices (raw : TransportOutcome) : CandidateMap :=
  discover_devices raw

/-- The initial discovery pass in `async_setup` (lines 74-75): the host
trigger mechanism `async_trigger_discovery` is invoked with the discovered
map exactly when the map is truthy (non-empty); `some m` records the
invocation payload, `none` records that no invocation happened. -/
def async_setup_trigger (raw : TransportOutcome) : Option CandidateMap :=
  let discovered_devices := async_discover_devices raw
  if discovered_devices = [] then none else some discovered_devices

/-- The `_async_discovery` closure registered for the startup-complete
signal and the 15-minute interval: same trigger policy as the setup pass. -/
def _async_discovery (raw : TransportOutcome) : Option CandidateMap :=
  let discovered := async_discover_devices raw
  if discovered = [] then none else some discovered

/-- An existing config entry as the flow sees it: its unique id and the
host stored in its data. -/
structure ConfigEntry where
  unique_id : Option String
  data_host : Option String
deriving DecidableEq, Repr

/-- The per-instance state of `ConfigFlow` (`__init__` plus the attributes
the framework gives every flow: its unique id and mutable context). -/
structure FlowState where
  discovered_devices : CandidateMap
  discovered_device : Option SwidgetDiscoveredDevice
  unique_id : Option String
  context_host : Option String
  confirm_only : Bool
  title_placeholders : Option (String × String)
deriving DecidableEq, Repr

/-- `ConfigFlow.__init__` together with a fresh framework context. -/
def initFlowState : FlowState :=
  { discovered_devices := []
    discovered_device := none
    unique_id := none
    context_host := none
    confirm_only := false
    title_placeholders := none }

/-- A `FlowResult`: the three result shapes this flow produces. -/
inductive FlowResult where
  | showForm (step_id : String) (errors : List (String × String))
  | createEntry (title : String) (data : Dict)
  | abort (reason : String)
deriving DecidableEq, Repr

/-- The external world a flow step consults: the registry of existing
entries, the `CONF_HOST` recorded in the context of every *other*
in-progress flow of this handler, the device-connection oracle and the
discovery transport. -/
structure Env where
  entries : List ConfigEntry
  others : List (Option String)
  connect : Connect
  discover : TransportOutcome

/-- Modelled from the spec: the host platform's `dr.format_mac` — the
discovery entry "normalizes identifier to canonical form"; modelled as
ASCII lowercasing. -/
def format_mac (mac : String) : String :=
  String.mk (List.map Char.toLower mac.data)

/-- Modelled from the spec: the framework helper
`_abort_if_unique_id_configured(updates={CONF_HOST: host})` — "aborts with
reason `already_configured` if canonical identifier matches an existing
record (and opportunistically updates that record's stored host if it
changed)". Returns the updated registry when it aborts. -/
def abort_if_unique_id_configured (entries : List ConfigEntry) (uid : String)
    (newHost : String) : Option (List ConfigEntry) :=
  if List.any entries (fun e => e.unique_id == some uid) then
    some (List.map
      (fun e => if e.unique_id = some uid then { e with data_host := some newHost } else e)
      entries)
  else none

/-- Modelled from the spec: the framework helper
`_async_abort_entries_match({CONF_HOST: host})`, which aborts the flow with
`already_configured` when an existing record already stores this host. -/
def async_abort_entries_match (entries : List ConfigEntry) (host : String) : Bool :=
  List.any entries (fun e => e.data_host == some host)

/-- `async_step_discovery_confirm`: asserts a discovered device is stored
(a failed `assert` raises), on submission injects the discovered host into
the input and calls `validate_input` with *no* surrounding try/except, and
with no submission records the title placeholders and shows the
`discovery_confirm` form. -/
def async_step_discovery_confirm (connect : Connect) (st : FlowState)
    (user_input : Option Dict) : Except Exc (FlowResult × FlowState) :=
  match st.discovered_device with
  | none => .error .assertionError
  | some dev =>
    match user_input with
    | some ui =>
      let ui := dictSet ui "host" dev.host
      match validate_input connect ui with
      | .ok info => .ok (.createEntry info.title ui, st)
      | .error e => .error e
    | none =>
      let st := { st with
        confirm_only := true
        title_placeholders := some (dev.friendly_name, dev.host) }
      .ok (.showForm "discovery_confirm" [], st)

/-- `async_step_pick_device`: a submission indexes
`self._discovered_devices[user_input["device"]]` unguarded (a missing key
raises `KeyError`), injects that device's host and calls `validate_input`
with no surrounding try/except; entry with no submission runs a fresh
discovery pass, filters out candidates whose identifier is a configured
unique id, aborts with `no_devices_found` when the filtered set is empty
and otherwise shows the `pick_device` form. -/
def async_step_pick_device (env : Env) (st : FlowState)
    (user_input : Option Dict) : Except Exc (FlowResult × FlowState) :=
  match user_input with
  | some ui =>
    match dictGet ui "device" with
    | none => .error .keyError
    | some devKey =>
      match candidateGet st.discovered_devices devKey with
      | none => .error .keyError
      | some dev =>
        let ui := dictSet ui "host" dev.host
        match validate_input env.connect ui with
        | .ok info => .ok (.createEntry info.title ui, st)
        | .error e => .error e
  | none =>
    let configured_devices := List.filterMap (fun (e : ConfigEntry) => e.unique_id) env.entries
    let st := { st with discovered_devices := async_discover_devices env.discover }
    let devices_name := List.filter
      (fun (p : String × SwidgetDiscoveredDevice) => !(List.elem p.1 configured_devices))
      st.discovered_devices
    if devices_name = [] then
      .ok (.abort "no_devices_found", st)
    else
      .ok (.showForm "pick_device" [], st)

/-- `async_step_user`: with no input shows the `user` form; a blank host
hands over to `async_step_pick_device`; otherwise `validate_input` is run
under try/except, `CannotConnect` / `InvalidAuth` / any other exception
re-display the form with error codes `cannot_connect` / `invalid_auth` /
`unknown`, and success creates the entry. -/
def async_step_user (env : Env) (st : FlowState)
    (user_input : Option Dict) : Except Exc (FlowResult × FlowState) :=
  match user_input with
  | none => .ok (.showForm "user" [], st)
  | some ui =>
    match dictGet ui "host" with
    | none => .error .keyError
    | some h =>
      if h = "" then
        async_step_pick_device env st none
      else
        match validate_input env.connect ui with
        | .ok info => .ok (.createEntry info.title ui, st)
        | .error .cannotConnect => .ok (.showForm "user" [("base", "cannot_connect")], st)
        | .error .invalidAuth => .ok (.showForm "user" [("base", "invalid_auth")], st)
        | .error _ => .ok (.showForm "user" [("base", "unknown")], st)

/-- Outcome of the discovery entry: the step's result (or uncaught
exception), the flow state it leaves behind, and the possibly-updated
entry registry. -/
structure DiscoveryOutcome where
  result : Except Exc FlowResult
  st : FlowState
  entries : List ConfigEntry
deriving Repr

/-- `_async_handle_discovery(host, mac)`: sets the unique id to the
canonical mac, aborts `already_configured` on a unique-id match (updating
that record's host) or on an existing entry storing this host, records the
host in this flow's context, aborts `already_in_progress` when another
in-progress flow's context records the same host, stores the discovered
device and enters `async_step_discovery_confirm`. -/
def _async_handle_discovery (env : Env) (st : FlowState)
    (host mac : String) : DiscoveryOutcome :=
  let uid := format_mac mac
  let st := { st with unique_id := some uid }
  match abort_if_unique_id_configured env.entries uid host with
  | some entries' => ⟨.ok (.abort "already_configured"), st, entries'⟩
  | none =>
    if async_abort_entries_match env.entries host then
      ⟨.ok (.abort "already_configured"), st, env.entries⟩
    else
      let st := { st with context_host := some host }
      if List.any env.others (fun o => o == some host) then
        ⟨.ok (.abort "already_in_progress"), st, env.entries⟩
      else
        let st := { st with
          discovered_device := some (SwidgetDiscoveredDevice.fromMacHost mac host) }
        match async_step_discovery_confirm env.connect st none with
        | .ok (r, st') => ⟨.ok r, st', env.entries⟩
        | .error e => ⟨.error e, st, env.entries⟩

/-- `async_step_integration_discovery`: reads `CONF_HOST` and `CONF_MAC`
from the discovery info and hands them to `_async_handle_discovery`. -/
def async_step_integration_discovery (env : Env) (st : FlowState)
    (discovery_info : Dict) : DiscoveryOutcome :=
  match dictGet discovery_info "host" with
  | none => ⟨.error .keyError, st, env.entries⟩
  | some h =>
    match dictGet discovery_info "mac" with
    | none => ⟨.error .keyError, st, env.entries⟩
    | some m => _async_handle_discovery env st h m

/-! Concrete devices, oracles and environments used to instantiate the
theorems below on explicit inputs. -/

/-- A device that answers every connection attempt successfully and
reports the friendly name "Plug". -/
def connectOk : Connect := fun _ _ _ => .ok "Plug"

/-- A device library that raises `SwidgetException` on every connection
or refresh attempt. -/
def connectFail : Connect := fun _ _ _ => .swidgetError

/-- A device at `10.0.0.5` that accepts exactly the token name
`x-secret-key` with password `p` and then reports the name "Plug";
anything else raises `SwidgetException`. -/
def connectPlug : Connect := fun host tokenName password =>
  if host == "10.0.0.5" && tokenName == "x-secret-key" && password == "p" then
    .ok "Plug"
  else .swidgetError

/-- Empty platform: no entries, no other in-flight flows, every
connection fails. -/
def envFail : Env :=
  { entries := [], others := [], connect := connectFail, discover := .ok [] }

/-- Empty platform: no entries, no other in-flight flows, every
connection succeeds. -/
def envOk : Env :=
  { entries := [], others := [], connect := connectOk, discover := .ok [] }

/-- Platform for the end-to-end scenario: no existing records, no other
in-flight flows, the device of `connectPlug` on the network. -/
def envC6 : Env :=
  { entries := [], others := [], connect := connectPlug, discover := .ok [] }

/-- The discovery-confirm submission of the end-to-end scenario. -/
def uiC6 : Dict := [("password", "p"), ("token_name", "x-secret-key")]

/-- The discovery entry of the end-to-end scenario: host `10.0.0.5`,
identifier `AA:BB:CC:DD:EE:FF`, starting from a fresh flow. -/
def outC6 : DiscoveryOutcome :=
  _async_handle_discovery envC6 initFlowState "10.0.0.5" "AA:BB:CC:DD:EE:FF"

/-- Platform with one other in-flight flow whose context records host
`1.2.3.4`. -/
def envProgress : Env :=
  { entries := [], others := [some "1.2.3.4"], connect := connectOk, discover := .ok [] }

/-- A manual submission for host `1.2.3.4` with full credentials. -/
def uiManual : Dict := [("host", "1.2.3.4"), ("token_name", "t"), ("password", "p")]

/-- Platform with one configured record: unique id `aa:bb:cc:dd:ee:ff`
storing host `10.0.0.1`. -/
def envConfigured : Env :=
  { entries := [{ unique_id := some "aa:bb:cc:dd:ee:ff", data_host := some "10.0.0.1" }]
    others := [], connect := connectOk, discover := .ok [] }

/-- Platform where discovery finds exactly one device whose identifier
`aa` is already configured. -/
def envC7 : Env :=
  { entries := [{ unique_id := some "aa", data_host := none }]
    others := [], connect := connectOk
    discover := .ok [("aa", ⟨"aa", "10.0.0.2", "Plug"⟩)] }

/-- A flow that stored a discovered device at host `1.2.3.4`. -/
def stConfirm : FlowState :=
  { initFlowState with discovered_device := some ⟨"aa", "1.2.3.4", ""⟩ }

/-- A flow whose last discovery pass found the device `aa` at `1.2.3.4`. -/
def stPicked : FlowState :=
  { initFlowState with discovered_devices := [("aa", ⟨"aa", "1.2.3.4", ""⟩)] }

/-- A pick-device submission selecting device `aa` with full credentials. -/
def uiPick : Dict := [("device", "aa"), ("token_name", "t"), ("password", "p")]

/-! ## Theorems -/

/-- C2: a transport-level error in the underlying discovery primitive is
swallowed: the discovery operation returns the empty candidate map, and its
result is identical to that of a discovery pass that found no devices, so
callers cannot distinguish the two. -/
theorem C2_discovery_error_swallowed :
    async_discover_devices .transportError = ([] : CandidateMap)
    ∧ async_discover_devices .transportError = async_discover_devices (.ok []) :=
  ⟨rfl, rfl⟩

/-- C8: on every poller discovery pass (the setup pass and the
startup/interval closure), the host trigger mechanism is invoked with the
entire candidate map exactly when that map is non-empty, and is not
invoked when the map is empty. -/
theorem C8_trigger_iff_nonempty (raw : TransportOutcome) (m : CandidateMap) :
    (_async_discovery raw = some m ↔ async_discover_devices raw = m ∧ m ≠ [])
    ∧ async_setup_trigger raw = _async_discovery raw
    ∧ (_async_discovery raw = none ↔ async_discover_devices raw = []) := by
  by_cases h : async_discover_devices raw = []
  · refine ⟨?_, by simp [_async_discovery, async_setup_trigger, h], by simp [_async_discovery, h]⟩
    simp only [_async_discovery, h, if_pos rfl]
    constructor
    · intro hc; cases hc
    · rintro ⟨hm, hne⟩; exact absurd hm.symm hne
  · refine ⟨?_, by simp [_async_discovery, async_setup_trigger, h], by simp [_async_discovery, h]⟩
    simp only [_async_discovery, if_neg h, Option.some.injEq]
    constructor
    · intro hm; exact ⟨hm, fun hnil => h (hm.trans hnil)⟩
    · intro hm; exact hm.1

/-- C6: end-to-end scenario. With no existing records, a discovery entry
for host `10.0.0.5` and identifier `AA:BB:CC:DD:EE:FF` reaches the
`discovery_confirm` form without touching the registry; submitting the
form with password `p` and token name `x-secret-key` against a device
whose refresh succeeds with friendly name "Plug" creates an entry titled
"Plug" whose data records host `10.0.0.5`. -/
theorem C6_end_to_end :
    outC6.result = .ok (.showForm "discovery_confirm" [])
    ∧ outC6.entries = []
    ∧ async_step_discovery_confirm connectPlug outC6.st (some uiC6)
      = .ok (.createEntry "Plug"
          [("password", "p"), ("token_name", "x-secret-key"), ("host", "10.0.0.5")],
          outC6.st) :=
  ⟨rfl, rfl, rfl⟩

/-- C7: entering `pick_device` with no submission runs a fresh discovery
pass and stores it; when every discovered candidate's identifier is
filtered out by the configured unique ids, the step aborts with
`no_devices_found`. -/
theorem C7_pick_device_no_devices (env : Env) (st : FlowState)
    (hempty : List.filter
        (fun (p : String × SwidgetDiscoveredDevice) =>
          !(List.elem p.1 (List.filterMap (fun (e : ConfigEntry) => e.unique_id) env.entries)))
        (async_discover_devices env.discover) = []) :
    async_step_pick_device env st none
      = .ok (.abort "no_devices_found",
             { st with discovered_devices := async_discover_devices env.discover }) := by
  simp only [async_step_pick_device]
  rw [hempty]
  rfl

/-- C7 witness: discovery finds exactly one device `aa`, which is already
configured; the filtered set is empty and the step aborts. -/
theorem C7_pick_device_no_devices_witness :
    List.filter
        (fun (p : String × SwidgetDiscoveredDevice) =>
          !(List.elem p.1 (List.filterMap (fun (e : ConfigEntry) => e.unique_id) envC7.entries)))
        (async_discover_devices envC7.discover) = []
    ∧ async_step_pick_device envC7 initFlowState none
      = .ok (.abort "no_devices_found",
             { initFlowState with discovered_devices := async_discover_devices envC7.discover }) :=
  ⟨rfl, C7_pick_device_no_devices envC7 initFlowState rfl⟩

/-- C4: under a discovery entry whose identifier and host do not match any
existing record, the flow aborts with `already_in_progress` exactly when
another in-progress flow's context already records the same host; when no
other flow records it, the step does not abort with that reason (it
proceeds to `discovery_confirm`), so at most one flow for a host gets
there. -/
theorem C4_discovery_in_progress_race (env : Env) (st : FlowState) (host mac : String)
    (h1 : abort_if_unique_id_configured env.entries (format_mac mac) host = none)
    (h2 : async_abort_entries_match env.entries host = false) :
    (_async_handle_discovery env st host mac).result = .ok (.abort "already_in_progress")
      ↔ List.any env.others (fun o => o == some host) = true := by
  simp only [_async_handle_discovery, h1, h2]
  by_cases h3 : List.any env.others (fun o => o == some host) = true
  · simp [h3]
  · simp [h3, async_step_discovery_confirm]

/-- C4 witness: one other in-flight flow records host `1.2.3.4`; the
discovery entry for the same host aborts with `already_in_progress`. -/
theorem C4_discovery_in_progress_race_witness :
    abort_if_unique_id_configured envProgress.entries (format_mac "AA") "1.2.3.4" = none
    ∧ async_abort_entries_match envProgress.entries "1.2.3.4" = false
    ∧ ((_async_handle_discovery envProgress initFlowState "1.2.3.4" "AA").result
        = .ok (.abort "already_in_progress")
       ↔ List.any envProgress.others (fun o => o == some "1.2.3.4") = true) :=
  ⟨rfl, rfl, C4_discovery_in_progress_race envProgress initFlowState "1.2.3.4" "AA" rfl rfl⟩

/-- C5: a discovery entry whose normalized identifier matches an existing
record's unique id aborts with `already_configured`; the registry keeps
the same number of records (no duplicate is created) and the matching
record's stored host is updated to the newly discovered host. -/
theorem C5_discovery_already_configured (env : Env) (st : FlowState) (host mac : String)
    (hmatch : List.any env.entries (fun e => e.unique_id == some (format_mac mac)) = true) :
    (_async_handle_discovery env st host mac).result = .ok (.abort "already_configured")
    ∧ (_async_handle_discovery env st host mac).entries
        = List.map (fun e => if e.unique_id = some (format_mac mac)
            then { e with data_host := some host } else e) env.entries
    ∧ ((_async_handle_discovery env st host mac).entries).length = env.entries.length := by
  unfold _async_handle_discovery abort_if_unique_id_configured
  simp only [hmatch]
  refine ⟨rfl, rfl, ?_⟩
  simp

/-- C5 witness: the record with unique id `aa:bb:cc:dd:ee:ff` is already
configured at host `10.0.0.1`; a discovery entry for the same identifier
at host `10.0.0.9` aborts and rewrites the stored host. -/
theorem C5_discovery_already_configured_witness :
    List.any envConfigured.entries
        (fun e => e.unique_id == some (format_mac "AA:BB:CC:DD:EE:FF")) = true
    ∧ ((_async_handle_discovery envConfigured initFlowState "10.0.0.9" "AA:BB:CC:DD:EE:FF").result
        = .ok (.abort "already_configured")
       ∧ (_async_handle_discovery envConfigured initFlowState "10.0.0.9" "AA:BB:CC:DD:EE:FF").entries
          = List.map (fun e => if e.unique_id = some (format_mac "AA:BB:CC:DD:EE:FF")
              then { e with data_host := some "10.0.0.9" } else e) envConfigured.entries
       ∧ ((_async_handle_discovery envConfigured initFlowState "10.0.0.9" "AA:BB:CC:DD:EE:FF").entries).length
          = envConfigured.entries.length) :=
  ⟨by decide,
   C5_discovery_already_configured envConfigured initFlowState "10.0.0.9" "AA:BB:CC:DD:EE:FF"
     (by decide)⟩

/-- Helper: `validate_input` never raises `InvalidAuth`: its only outcomes
are success, `CannotConnect`, `KeyError` and an unclassified exception. -/
theorem validate_input_ne_invalidAuth (connect : Connect) (data : Dict) :
    validate_input connect data ≠ .error .invalidAuth := by
  unfold validate_input
  repeat' split
  all_goals simp

/-- Helper: on a dict with exactly the three expected keys,
`validate_input` is the classification of the connection outcome. -/
theorem validate_input_explicit (connect : Connect) (h t p : String) :
    validate_input connect [("host", h), ("token_name", t), ("password", p)]
      = match connect h t p with
        | .ok name => .ok ⟨name⟩
        | .swidgetError => .error .cannotConnect
        | .otherError => .error .otherExc := rfl

/-- Helper: entering `pick_device` with no submission either aborts with
`no_devices_found` or shows the `pick_device` form, in both cases storing
the fresh discovery pass. -/
theorem pick_device_entry_cases (env : Env) (st : FlowState) :
    async_step_pick_device env st none
      = .ok (.abort "no_devices_found",
             { st with discovered_devices := async_discover_devices env.discover })
    ∨ async_step_pick_device env st none
      = .ok (.showForm "pick_device" [],
             { st with discovered_devices := async_discover_devices env.discover }) := by
  simp only [async_step_pick_device]
  split
  · exact Or.inl rfl
  · exact Or.inr rfl

/-- Helper: the user step never re-displays its form with the
`invalid_auth` error code. -/
theorem user_step_no_invalid_auth_form (env : Env) (st st' : FlowState)
    (ui : Option Dict) :
    async_step_user env st ui ≠ .ok (.showForm "user" [("base", "invalid_auth")], st') := by
  cases ui with
  | none => unfold async_step_user; simp
  | some d =>
    unfold async_step_user
    cases hd : dictGet d "host" with
    | none => simp [hd]
    | some hv =>
      simp only [hd]
      by_cases hb : hv = ""
      · rw [if_pos hb]
        rcases pick_device_entry_cases env st with h | h <;> rw [h] <;> simp
      · rw [if_neg hb]
        cases hvv : validate_input env.connect d with
        | ok info => simp [hvv]
        | error e =>
          cases e with
          | cannotConnect => simp [hvv]
          | invalidAuth => exact absurd hvv (validate_input_ne_invalidAuth env.connect d)
          | keyError => simp [hvv]
          | assertionError => simp [hvv]
          | otherExc => simp [hvv]

/-- C9: the validation path never classifies a failure as `invalid_auth`:
`validate_input` cannot return it, a library exception during
connection/refresh is reclassified as `cannot_connect`, and the user step
never re-displays its form with the `invalid_auth` error code. -/
theorem C9_invalid_auth_unreachable (connect : Connect) (data : Dict) (h t p : String)
    (env : Env) (st st' : FlowState) (ui : Option Dict)
    (hsw : connect h t p = .swidgetError) :
    validate_input connect data ≠ .error .invalidAuth
    ∧ validate_input connect [("host", h), ("token_name", t), ("password", p)]
        = .error .cannotConnect
    ∧ async_step_user env st ui ≠ .ok (.showForm "user" [("base", "invalid_auth")], st') := by
  refine ⟨validate_input_ne_invalidAuth connect data, ?_,
    user_step_no_invalid_auth_form env st st' ui⟩
  rw [validate_input_explicit, hsw]

/-- C9 witness: a device that always raises the library exception. -/
theorem C9_invalid_auth_unreachable_witness :
    connectFail "h" "t" "p" = .swidgetError
    ∧ (validate_input connectFail [] ≠ .error .invalidAuth
       ∧ validate_input connectFail [("host", "h"), ("token_name", "t"), ("password", "p")]
          = .error .cannotConnect
       ∧ async_step_user envFail initFlowState none
          ≠ .ok (.showForm "user" [("base", "invalid_auth")], initFlowState)) :=
  ⟨rfl, C9_invalid_auth_unreachable connectFail [] "h" "t" "p" envFail
    initFlowState initFlowState none rfl⟩

/-- C10: a fresh flow starts with an empty discovered-devices map, and a
pick-device submission whose selected identifier is not a key of that map
fails with an uncaught `KeyError` (not a classified abort) at the
unguarded indexing of the stored map. -/
theorem C10_pick_device_unguarded_lookup (env : Env) (st : FlowState) (ui : Dict)
    (k : String) (hdev : dictGet ui "device" = some k)
    (hmiss : candidateGet st.discovered_devices k = none) :
    initFlowState.discovered_devices = []
    ∧ async_step_pick_device env st (some ui) = .error .keyError := by
  refine ⟨rfl, ?_⟩
  unfold async_step_pick_device
  simp [hdev, hmiss]

/-- C10 witness: submitting device `aa` to a fresh flow, before any
discovery pass populated the map, crashes with `KeyError`. -/
theorem C10_pick_device_unguarded_lookup_witness :
    dictGet [("device", "aa")] "device" = some "aa"
    ∧ candidateGet initFlowState.discovered_devices "aa" = none
    ∧ (initFlowState.discovered_devices = []
       ∧ async_step_pick_device envOk initFlowState (some [("device", "aa")])
          = .error .keyError) :=
  ⟨rfl, rfl, C10_pick_device_unguarded_lookup envOk initFlowState [("device", "aa")] "aa" rfl rfl⟩

/-- C1 counterexample: against a device that raises the library exception,
the `discovery_confirm` submission and the `pick_device` submission both
let the `CannotConnect` exception escape the step handler instead of
re-displaying the form with `cannot_connect`. -/
theorem C1_counterexample :
    async_step_discovery_confirm connectFail stConfirm (some uiC6) = .error .cannotConnect
    ∧ async_step_pick_device envFail stPicked (some uiPick) = .error .cannotConnect :=
  ⟨rfl, rfl⟩

/-- C1 amended: only the user direct-host path converts a validation
failure into re-displaying its form with `cannot_connect`; the
`discovery_confirm` and `pick_device` submissions do not catch it, and the
`CannotConnect` exception propagates out of those step handlers. -/
theorem C1_only_user_step_catches (env : Env) (st stc stp : FlowState)
    (ui uic uip : Dict) (h k : String) (dev devp : SwidgetDiscoveredDevice)
    (hh : dictGet ui "host" = some h) (hne : h ≠ "")
    (hvu : validate_input env.connect ui = .error .cannotConnect)
    (hdc : stc.discovered_device = some dev)
    (hvc : validate_input env.connect (dictSet uic "host" dev.host) = .error .cannotConnect)
    (hk : dictGet uip "device" = some k)
    (hlp : candidateGet stp.discovered_devices k = some devp)
    (hvp : validate_input env.connect (dictSet uip "host" devp.host) = .error .cannotConnect) :
    async_step_user env st (some ui) = .ok (.showForm "user" [("base", "cannot_connect")], st)
    ∧ async_step_discovery_confirm env.connect stc (some uic) = .error .cannotConnect
    ∧ async_step_pick_device env stp (some uip) = .error .cannotConnect := by
  refine ⟨?_, ?_, ?_⟩
  · unfold async_step_user
    simp [hh, hne, hvu]
  · unfold async_step_discovery_confirm
    simp [hdc, hvc]
  · unfold async_step_pick_device
    simp [hk, hlp, hvp]

/-- C1 amended, witness: a device that always fails; the user step
re-displays its form, the other two submissions crash. -/
theorem C1_only_user_step_catches_witness :
    dictGet uiManual "host" = some "1.2.3.4"
    ∧ ("1.2.3.4" : String) ≠ ""
    ∧ validate_input envFail.connect uiManual = .error .cannotConnect
    ∧ stConfirm.discovered_device = some ⟨"aa", "1.2.3.4", ""⟩
    ∧ validate_input envFail.connect (dictSet uiC6 "host" "1.2.3.4") = .error .cannotConnect
    ∧ dictGet uiPick "device" = some "aa"
    ∧ candidateGet stPicked.discovered_devices "aa" = some ⟨"aa", "1.2.3.4", ""⟩
    ∧ validate_input envFail.connect (dictSet uiPick "host" "1.2.3.4") = .error .cannotConnect
    ∧ (async_step_user envFail initFlowState (some uiManual)
        = .ok (.showForm "user" [("base", "cannot_connect")], initFlowState)
       ∧ async_step_discovery_confirm envFail.connect stConfirm (some uiC6)
        = .error .cannotConnect
       ∧ async_step_pick_device envFail stPicked (some uiPick) = .error .cannotConnect) :=
  ⟨rfl, by decide, rfl, rfl, rfl, rfl, rfl, rfl,
   C1_only_user_step_catches envFail initFlowState stConfirm stPicked uiManual uiC6 uiPick
     "1.2.3.4" "aa" ⟨"aa", "1.2.3.4", ""⟩ ⟨"aa", "1.2.3.4", ""⟩
     rfl (by decide) rfl rfl rfl rfl rfl rfl⟩

/-- C3 counterexample: another manual attempt for host `1.2.3.4` is
already in flight (its context records that host), yet a later manual
submission of the same host does not abort with `already_in_progress`; it
proceeds straight to validation and creates the entry. -/
theorem C3_counterexample :
    async_step_user envProgress initFlowState (some uiManual)
      = .ok (.createEntry "Plug" uiManual, initFlowState)
    ∧ FlowResult.createEntry "Plug" uiManual ≠ FlowResult.abort "already_in_progress" :=
  ⟨rfl, by decide⟩

/-- Helper: the user step on a submission, with its outer match reduced. -/
theorem async_step_user_some (env : Env) (st : FlowState) (d : Dict) :
    async_step_user env st (some d)
      = match dictGet d "host" with
        | none => .error .keyError
        | some h =>
          if h = "" then async_step_pick_device env st none
          else
            match validate_input env.connect d with
            | .ok info => .ok (.createEntry info.title d, st)
            | .error .cannotConnect => .ok (.showForm "user" [("base", "cannot_connect")], st)
            | .error .invalidAuth => .ok (.showForm "user" [("base", "invalid_auth")], st)
            | .error _ => .ok (.showForm "user" [("base", "unknown")], st) := rfl

/-- Helper: no result the user step returns is an `already_in_progress`
abort. -/
theorem user_step_never_in_progress_abort (env : Env) (st : FlowState)
    (ui : Option Dict) (r : FlowResult × FlowState)
    (hr : async_step_user env st ui = .ok r) :
    r.1 ≠ .abort "already_in_progress" := by
  cases ui with
  | none =>
    unfold async_step_user at hr
    cases hr
    simp
  | some d =>
    rw [async_step_user_some] at hr
    cases hd : dictGet d "host" with
    | none => simp only [hd] at hr; exact Except.noConfusion hr
    | some hv =>
      simp only [hd] at hr
      by_cases hb : hv = ""
      · rw [if_pos hb] at hr
        rcases pick_device_entry_cases env st with h | h <;>
          rw [h] at hr <;> cases hr <;> simp
      · rw [if_neg hb] at hr
        cases hvv : validate_input env.connect d with
        | ok info => rw [hvv] at hr; cases hr; simp
        | error e =>
          cases e with
          | cannotConnect => rw [hvv] at hr; cases hr; simp
          | invalidAuth => rw [hvv] at hr; cases hr; simp
          | keyError => rw [hvv] at hr; cases hr; simp
          | assertionError => rw [hvv] at hr; cases hr; simp
          | otherExc => rw [hvv] at hr; cases hr; simp

/-- C3 amended: the manual (user-entry) path performs no in-progress
check at all: its outcome is independent of the other in-flight flows, a
later same-host manual attempt proceeds to validation regardless of them,
and the user step never aborts with `already_in_progress` (only the
discovery entry path does). -/
theorem C3_manual_attempts_do_not_check_progress (env : Env)
    (others' : List (Option String)) (st : FlowState) (ui : Option Dict)
    (r : FlowResult × FlowState)
    (hr : async_step_user env st ui = .ok r) :
    async_step_user { env with others := others' } st ui = async_step_user env st ui
    ∧ r.1 ≠ .abort "already_in_progress" := by
  refine ⟨?_, user_step_never_in_progress_abort env st ui r hr⟩
  cases ui with
  | none => rfl
  | some d => rfl

/-- C3 amended, witness: with another in-flight flow recording the same
host, the later manual submission behaves exactly as with no other flows
and its result is not an `already_in_progress` abort. -/
theorem C3_manual_attempts_do_not_check_progress_witness :
    async_step_user envProgress initFlowState (some uiManual)
      = .ok (.createEntry "Plug" uiManual, initFlowState)
    ∧ (async_step_user { envProgress with others := [] } initFlowState (some uiManual)
        = async_step_user envProgress initFlowState (some uiManual)
       ∧ (FlowResult.createEntry "Plug" uiManual, initFlowState).1
          ≠ .abort "already_in_progress") :=
  ⟨rfl, C3_manual_attempts_do_not_check_progress envProgress [] initFlowState
    (some uiManual) (.createEntry "Plug" uiManual, initFlowState) rfl⟩

end Swidget
